import Mathlib

/-
Shallow embedding of src/src/third-party/imgui/backends/imgui_impl_allegro5.cpp.

Floats are modelled as rationals (the claims only involve exact values:
comparisons, subtractions, and copies, all exact in the inputs considered).
Packed 32-bit colors are naturals below 2^32; the C byte-pointer read
((unsigned char*)&col)[k] on a little-endian machine is col / 256^k % 256.
Allegro host render state is the four pieces of state the render function
touches: current transform, projection transform, clipping rectangle and
the (separate) blender.  ALLEGRO_COLOR is represented by the four byte
arguments given to al_map_rgba, which is injective on bytes.
-/

/-- 2D float vector, mirroring ImVec2. -/
structure ImVec2 where
  x : ℚ
  y : ℚ
deriving DecidableEq

/-- 4D float vector, mirroring ImVec4 (used for ImDrawCmd::ClipRect). -/
structure ImVec4 where
  x : ℚ
  y : ℚ
  z : ℚ
  w : ℚ
deriving DecidableEq

/-- A source GUI vertex: position, texture coordinate, packed 4-byte color
(ImDrawVert). -/
structure ImDrawVert where
  pos : ImVec2
  uv : ImVec2
  col : ℕ
deriving DecidableEq

/-- Result of al_map_rgba: a host color, identified by its four byte
channels (al_map_rgba is injective on byte inputs). -/
structure ALLEGRO_COLOR where
  r : ℕ
  g : ℕ
  b : ℕ
  a : ℕ
deriving DecidableEq

/-- Model of al_map_rgba. -/
def al_map_rgba (r g b a : ℕ) : ALLEGRO_COLOR := ⟨r, g, b, a⟩

/-- Byte k of a packed little-endian 32-bit color, as read by the source
through a cast to unsigned char pointer: c[k]. -/
def colByte (col k : ℕ) : ℕ := col / 256 ^ k % 256

/-- Host vertex layout built by the render loop (struct ImDrawVertAllegro). -/
structure ImDrawVertAllegro where
  pos : ImVec2
  uv : ImVec2
  col : ALLEGRO_COLOR
deriving DecidableEq

/-- A user callback stored in an ImDrawCmd: either the reserved
ImDrawCallback_ResetRenderState sentinel or an arbitrary user function,
identified by a tag that selects an effect from the callback environment. -/
inductive UserCallback where
  | resetRenderState : UserCallback
  | user (k : ℕ) : UserCallback
deriving DecidableEq

/-- One GUI draw command (ImDrawCmd): clip rectangle, texture id, element
count, and an optional callback in place of a normal draw. -/
structure ImDrawCmd where
  clipRect : ImVec4
  textureId : ℕ
  elemCount : ℕ
  userCallback : Option UserCallback
deriving DecidableEq

/-- One GUI draw batch (ImDrawList): vertex buffer, index buffer, command
buffer. -/
structure ImDrawList where
  vtxBuffer : List ImDrawVert
  idxBuffer : List ℕ
  cmdBuffer : List ImDrawCmd
deriving DecidableEq

/-- Frame draw data (ImDrawData): the batches plus display origin and size. -/
structure ImDrawData where
  cmdLists : List ImDrawList
  displayPos : ImVec2
  displaySize : ImVec2
deriving DecidableEq

/-- Allegro blend-mode enum values (allegro5 ALLEGRO_BLEND_MODE). -/
def ALLEGRO_ZERO : ℕ := 0

/-- ALLEGRO_ONE blend factor. -/
def ALLEGRO_ONE : ℕ := 1

/-- ALLEGRO_ALPHA blend factor. -/
def ALLEGRO_ALPHA : ℕ := 2

/-- ALLEGRO_INVERSE_ALPHA blend factor. -/
def ALLEGRO_INVERSE_ALPHA : ℕ := 3

/-- ALLEGRO_ADD blend operation. -/
def ALLEGRO_ADD : ℕ := 0

/-- An Allegro transform value.  The render path only ever installs the
identity transform and an orthographic projection built on the identity;
any pre-existing caller transform is an arbitrary opaque value. -/
inductive ALLEGRO_TRANSFORM where
  | ident : ALLEGRO_TRANSFORM
  | orthographic (L T n R B f : ℚ) : ALLEGRO_TRANSFORM
  | arbitrary (id : ℕ) : ALLEGRO_TRANSFORM
deriving DecidableEq

/-- The full Allegro blender state: a color triple and a separate alpha
triple.  al_get_blender reads only the color triple; al_set_blender sets
both triples to the same values; al_set_separate_blender sets all six. -/
structure ALLEGRO_BLENDER where
  op : ℕ
  src : ℕ
  dst : ℕ
  alpha_op : ℕ
  alpha_src : ℕ
  alpha_dst : ℕ
deriving DecidableEq

/-- Model of al_set_blender: documented as equivalent to
al_set_separate_blender with the alpha triple equal to the color triple. -/
def al_set_blender (op src dst : ℕ) : ALLEGRO_BLENDER :=
  ⟨op, src, dst, op, src, dst⟩

/-- Model of al_set_separate_blender. -/
def al_set_separate_blender (op src dst aop asrc adst : ℕ) : ALLEGRO_BLENDER :=
  ⟨op, src, dst, aop, asrc, adst⟩

/-- The host render state the render function reads and writes: current
transform, projection transform, clipping rectangle (integers, as in
al_get_clipping_rectangle), and blender. -/
structure AllegroState where
  transform : ALLEGRO_TRANSFORM
  projection : ALLEGRO_TRANSFORM
  clip_x : ℤ
  clip_y : ℤ
  clip_w : ℤ
  clip_h : ℤ
  blender : ALLEGRO_BLENDER
deriving DecidableEq

/-- C float-to-int conversion (truncation toward zero), applied when the
source passes float clip coordinates to al_set_clipping_rectangle. -/
def ctrunc (q : ℚ) : ℤ := Int.tdiv q.num q.den

/-- A host drawing call issued by the render function: al_draw_prim over
the rebuilt vertex array slice [start, stop) with the given texture. -/
inductive HostCall where
  | drawPrim (texture : ℕ) (start stop : ℕ) : HostCall
deriving DecidableEq

/-- ImGui_ImplAllegro5_SetupRenderState: installs the blending mode and the
orthographic projection over [DisplayPos, DisplayPos + DisplaySize]. -/
def ImGui_ImplAllegro5_SetupRenderState (draw_data : ImDrawData)
    (s : AllegroState) : AllegroState :=
  let L := draw_data.displayPos.x
  let R := draw_data.displayPos.x + draw_data.displaySize.x
  let T := draw_data.displayPos.y
  let B := draw_data.displayPos.y + draw_data.displaySize.y
  { s with
    blender := al_set_separate_blender ALLEGRO_ADD ALLEGRO_ALPHA
      ALLEGRO_INVERSE_ALPHA ALLEGRO_ADD ALLEGRO_ONE ALLEGRO_INVERSE_ALPHA
    transform := ALLEGRO_TRANSFORM.ident
    projection := ALLEGRO_TRANSFORM.orthographic L T 1 R B (-1) }

/-- Default source vertex, standing for the unspecified value a C
out-of-bounds read would yield (claims only use in-bounds indices). -/
def defaultDrawVert : ImDrawVert := ⟨⟨0, 0⟩, ⟨0, 0⟩, 0⟩

/-- Default host vertex (List.getD default for statements). -/
def defaultVertAllegro : ImDrawVertAllegro :=
  ⟨⟨0, 0⟩, ⟨0, 0⟩, al_map_rgba 0 0 0 0⟩

/-- The per-batch vertex rebuild loop: walk the index buffer and, for each
index, copy pos/uv from the referenced vertex and expand its packed color
through al_map_rgba on the four bytes read at the color's address. -/
def convertVertices (cmd_list : ImDrawList) : List ImDrawVertAllegro :=
  cmd_list.idxBuffer.map fun idx =>
    let src_v := cmd_list.vtxBuffer.getD idx defaultDrawVert
    { pos := src_v.pos
      uv := src_v.uv
      col := al_map_rgba (colByte src_v.col 0) (colByte src_v.col 1)
        (colByte src_v.col 2) (colByte src_v.col 3) }

/-- One step of the per-command loop inside a batch.  The accumulator is
(idx_offset, host state, draw calls so far).  Mirrors the source exactly:
a callback command invokes the callback (or re-runs setup for the reset
sentinel); a degenerate clip rectangle hits `continue`, which in the source
jumps past the idx_offset increment at the bottom of the loop; otherwise
the clip rectangle is set and the slice [idx_offset, idx_offset+ElemCount)
is drawn, and idx_offset advances. -/
def processDrawCmd (cb : ℕ → AllegroState → AllegroState)
    (draw_data : ImDrawData) (acc : ℕ × AllegroState × List HostCall)
    (pcmd : ImDrawCmd) : ℕ × AllegroState × List HostCall :=
  let idx_offset := acc.1
  let s := acc.2.1
  let calls := acc.2.2
  match pcmd.userCallback with
  | some UserCallback.resetRenderState =>
      (idx_offset + pcmd.elemCount,
        ImGui_ImplAllegro5_SetupRenderState draw_data s, calls)
  | some (UserCallback.user k) =>
      (idx_offset + pcmd.elemCount, cb k s, calls)
  | none =>
      let clip_min_x := pcmd.clipRect.x - draw_data.displayPos.x
      let clip_min_y := pcmd.clipRect.y - draw_data.displayPos.y
      let clip_max_x := pcmd.clipRect.z - draw_data.displayPos.x
      let clip_max_y := pcmd.clipRect.w - draw_data.displayPos.y
      if clip_max_x < clip_min_x ∨ clip_max_y < clip_min_y then
        (idx_offset, s, calls)
      else
        let s := { s with
          clip_x := ctrunc clip_min_x
          clip_y := ctrunc clip_min_y
          clip_w := ctrunc (clip_max_x - clip_min_x)
          clip_h := ctrunc (clip_max_y - clip_min_y) }
        (idx_offset + pcmd.elemCount, s,
          calls ++ [HostCall.drawPrim pcmd.textureId idx_offset
            (idx_offset + pcmd.elemCount)])

/-- Processing of one batch: idx_offset starts at 0 for each batch, then
every command of the batch is processed in order.  (The vertex rebuild of
the batch, convertVertices, affects no host state and is verified
separately.) -/
def processCmdList (cb : ℕ → AllegroState → AllegroState)
    (draw_data : ImDrawData) (acc : AllegroState × List HostCall)
    (cmd_list : ImDrawList) : AllegroState × List HostCall :=
  let r := cmd_list.cmdBuffer.foldl (processDrawCmd cb draw_data)
    (0, acc.1, acc.2)
  (r.2.1, r.2.2)

/-- ImGui_ImplAllegro5_RenderDrawData.  Returns the final host state and
the list of drawing calls issued.  `cb` gives the host-state effect of each
user callback tag.  Mirrors the source: early-out on non-positive display
size; backup of transform, projection, clip rectangle and the al_get_blender
color triple; setup; the batch loop; restore via al_set_blender,
al_set_clipping_rectangle, al_use_transform, al_use_projection_transform. -/
def ImGui_ImplAllegro5_RenderDrawData (cb : ℕ → AllegroState → AllegroState)
    (draw_data : ImDrawData) (s : AllegroState) :
    AllegroState × List HostCall :=
  if draw_data.displaySize.x ≤ 0 ∨ draw_data.displaySize.y ≤ 0 then
    (s, [])
  else
    let last_transform := s.transform
    let last_projection_transform := s.projection
    let last_clip_x := s.clip_x
    let last_clip_y := s.clip_y
    let last_clip_w := s.clip_w
    let last_clip_h := s.clip_h
    let last_blender_op := s.blender.op
    let last_blender_src := s.blender.src
    let last_blender_dst := s.blender.dst
    let s1 := ImGui_ImplAllegro5_SetupRenderState draw_data s
    let r := draw_data.cmdLists.foldl (processCmdList cb draw_data) (s1, [])
    ({ r.1 with
        blender := al_set_blender last_blender_op last_blender_src
          last_blender_dst
        clip_x := last_clip_x
        clip_y := last_clip_y
        clip_w := last_clip_w
        clip_h := last_clip_h
        transform := last_transform
        projection := last_projection_transform }, r.2)

/-- FLT_MAX as an exact rational: (2^24 - 1) * 2^104. -/
def FLT_MAX : ℚ := (2 ^ 24 - 1) * 2 ^ 104

/-- The shared GUI input state (the fields of ImGuiIO touched by
ImGui_ImplAllegro5_ProcessEvent).  AddInputCharacter and AddFocusEvent are
queues, modelled as appended lists.  oobWrite records that an array write
with an out-of-range index happened (undefined behavior in the C source);
it starts false and no in-range operation ever touches it. -/
structure ImGuiIOState where
  mousePos : ImVec2
  mouseDown : List Bool
  mouseWheel : ℚ
  mouseWheelH : ℚ
  keysDown : List Bool
  inputCharacters : List ℕ
  focusEvents : List Bool
  oobWrite : Bool
deriving DecidableEq

/-- C unsigned-int subtraction of 1 (the source computes
ev->mouse.button - 1 where button is an unsigned int, so 0 wraps to
2^32 - 1). -/
def cUIntSub1 (button : ℕ) : ℕ := (button + (2 ^ 32 - 1)) % 2 ^ 32

/-- Write io.MouseDown[i]: in-range indices update the flag array, an
out-of-range index is an undefined-behavior write, recorded in oobWrite. -/
def setMouseDown (st : ImGuiIOState) (i : ℕ) (v : Bool) : ImGuiIOState :=
  if i < st.mouseDown.length then { st with mouseDown := st.mouseDown.set i v }
  else { st with oobWrite := true }

/-- Write io.KeysDown[keycode], with the same out-of-range convention. -/
def setKeyDown (st : ImGuiIOState) (i : ℕ) (v : Bool) : ImGuiIOState :=
  if i < st.keysDown.length then { st with keysDown := st.keysDown.set i v }
  else { st with oobWrite := true }

/-- An Allegro event, restricted to the payload fields the backend reads.
Displays are identified by naturals.  otherEvent stands for every event
type without a case in the source's switch. -/
inductive ALLEGRO_EVENT where
  | mouseAxes (display : ℕ) (x y dz dw : ℚ) : ALLEGRO_EVENT
  | mouseButtonDown (display : ℕ) (button : ℕ) : ALLEGRO_EVENT
  | mouseButtonUp (display : ℕ) (button : ℕ) : ALLEGRO_EVENT
  | touchMove (display : ℕ) (x y : ℚ) : ALLEGRO_EVENT
  | touchBegin (display : ℕ) (primary : Bool) : ALLEGRO_EVENT
  | touchEnd (display : ℕ) (primary : Bool) : ALLEGRO_EVENT
  | touchCancel (display : ℕ) (primary : Bool) : ALLEGRO_EVENT
  | mouseLeaveDisplay (display : ℕ) : ALLEGRO_EVENT
  | keyChar (display : ℕ) (keycode : ℕ) (unichar : ℕ) : ALLEGRO_EVENT
  | keyDown (display : ℕ) (keycode : ℕ) : ALLEGRO_EVENT
  | keyUp (display : ℕ) (keycode : ℕ) : ALLEGRO_EVENT
  | displaySwitchOut (display : ℕ) : ALLEGRO_EVENT
  | displaySwitchIn (display : ℕ) : ALLEGRO_EVENT
  | otherEvent (typeId : ℕ) : ALLEGRO_EVENT
deriving DecidableEq

/-- ImGui_ImplAllegro5_ProcessEvent: returns (consumed, new input state).
bdDisplay is bd->Display.  Each recognized case returns true and mutates
state only when the event's display equals the bound display; the default
case returns false.  The source compiles without ALLEGRO_UNSTABLE, so the
display-switch-in case only queues a focus event. -/
def ImGui_ImplAllegro5_ProcessEvent (bdDisplay : ℕ) (st : ImGuiIOState)
    (ev : ALLEGRO_EVENT) : Bool × ImGuiIOState :=
  match ev with
  | ALLEGRO_EVENT.mouseAxes d x y dz dw =>
      (true, if d = bdDisplay then
        { st with
          mouseWheel := st.mouseWheel + dz
          mouseWheelH := st.mouseWheelH - dw
          mousePos := ⟨x, y⟩ }
      else st)
  | ALLEGRO_EVENT.mouseButtonDown d button =>
      (true, if d = bdDisplay ∧ button ≤ 5 then
        setMouseDown st (cUIntSub1 button) true
      else st)
  | ALLEGRO_EVENT.mouseButtonUp d button =>
      (true, if d = bdDisplay ∧ button ≤ 5 then
        setMouseDown st (cUIntSub1 button) false
      else st)
  | ALLEGRO_EVENT.touchMove d x y =>
      (true, if d = bdDisplay then { st with mousePos := ⟨x, y⟩ } else st)
  | ALLEGRO_EVENT.touchBegin d primary =>
      (true, if d = bdDisplay ∧ primary = true then
        setMouseDown st 0 true
      else st)
  | ALLEGRO_EVENT.touchEnd d primary =>
      (true, if d = bdDisplay ∧ primary = true then
        setMouseDown st 0 false
      else st)
  | ALLEGRO_EVENT.touchCancel d primary =>
      (true, if d = bdDisplay ∧ primary = true then
        setMouseDown st 0 false
      else st)
  | ALLEGRO_EVENT.mouseLeaveDisplay d =>
      (true, if d = bdDisplay then
        { st with mousePos := ⟨-FLT_MAX, -FLT_MAX⟩ }
      else st)
  | ALLEGRO_EVENT.keyChar d _ unichar =>
      (true, if d = bdDisplay ∧ unichar ≠ 0 then
        { st with inputCharacters := st.inputCharacters ++ [unichar] }
      else st)
  | ALLEGRO_EVENT.keyDown d keycode =>
      (true, if d = bdDisplay then setKeyDown st keycode true else st)
  | ALLEGRO_EVENT.keyUp d keycode =>
      (true, if d = bdDisplay then setKeyDown st keycode false else st)
  | ALLEGRO_EVENT.displaySwitchOut d =>
      (true, if d = bdDisplay then
        { st with focusEvents := st.focusEvents ++ [false] }
      else st)
  | ALLEGRO_EVENT.displaySwitchIn d =>
      (true, if d = bdDisplay then
        { st with focusEvents := st.focusEvents ++ [true] }
      else st)
  | ALLEGRO_EVENT.otherEvent _ => (false, st)

/-- Whether the backend's switch has a case for the event (statement-side
definition for the consumed-iff-recognized property). -/
def recognizedEvent : ALLEGRO_EVENT → Bool
  | ALLEGRO_EVENT.otherEvent _ => false
  | _ => true

/-- The display an event refers to (none for unrecognized events, whose
payload the backend never reads). -/
def eventDisplay : ALLEGRO_EVENT → Option ℕ
  | ALLEGRO_EVENT.mouseAxes d _ _ _ _ => some d
  | ALLEGRO_EVENT.mouseButtonDown d _ => some d
  | ALLEGRO_EVENT.mouseButtonUp d _ => some d
  | ALLEGRO_EVENT.touchMove d _ _ => some d
  | ALLEGRO_EVENT.touchBegin d _ => some d
  | ALLEGRO_EVENT.touchEnd d _ => some d
  | ALLEGRO_EVENT.touchCancel d _ => some d
  | ALLEGRO_EVENT.mouseLeaveDisplay d => some d
  | ALLEGRO_EVENT.keyChar d _ _ => some d
  | ALLEGRO_EVENT.keyDown d _ => some d
  | ALLEGRO_EVENT.keyUp d _ => some d
  | ALLEGRO_EVENT.displaySwitchOut d => some d
  | ALLEGRO_EVENT.displaySwitchIn d => some d
  | ALLEGRO_EVENT.otherEvent _ => none

/-- The outcome of each fallible host call inside
ImGui_ImplAllegro5_CreateDeviceObjects: al_create_bitmap for the font
atlas, al_lock_bitmap, al_clone_bitmap, al_create_bitmap for the 8x8
cursor placeholder, al_create_mouse_cursor. -/
structure DeviceEnv where
  atlasBitmapOk : Bool
  lockOk : Bool
  cloneOk : Bool
  cursorBitmapOk : Bool
  createCursorOk : Bool
deriving DecidableEq

/-- Backend/device state for the resource manager: the set of live host
bitmaps (handles drawn from nextHandle, so handles are fresh), bd->Texture,
the font system's texture id (io.Fonts SetTexID target), and
bd->MouseCursorInvisible. -/
structure DeviceState where
  liveBitmaps : List ℕ
  nextHandle : ℕ
  bdTexture : Option ℕ
  fontsTexID : Option ℕ
  bdMouseCursorInvisible : Option ℕ
deriving DecidableEq

/-- Model of al_destroy_bitmap on a live-bitmap list. -/
def al_destroy_bitmap (st : DeviceState) (h : ℕ) : DeviceState :=
  { st with liveBitmaps := st.liveBitmaps.erase h }

/-- ImGui_ImplAllegro5_CreateDeviceObjects.  Mirrors the source: create the
atlas bitmap (return false if that fails); lock it (destroy it and return
false on failure); copy pixels and unlock; clone it, destroy the original
unconditionally, and return false if the clone failed; store the clone in
both io.Fonts and bd->Texture; then create the 8x8 placeholder bitmap and
the invisible mouse cursor with neither result checked, destroy the
placeholder (al_destroy_bitmap ignores a null pointer), and return true. -/
def ImGui_ImplAllegro5_CreateDeviceObjects (env : DeviceEnv)
    (st : DeviceState) : Bool × DeviceState :=
  if env.atlasBitmapOk = false then (false, st)
  else
    let img := st.nextHandle
    let st1 := { st with liveBitmaps := st.liveBitmaps ++ [img]
                         nextHandle := st.nextHandle + 1 }
    if env.lockOk = false then (false, al_destroy_bitmap st1 img)
    else
      if env.cloneOk = false then (false, al_destroy_bitmap st1 img)
      else
        let cloned := st1.nextHandle
        let st2 := { st1 with liveBitmaps := st1.liveBitmaps ++ [cloned]
                              nextHandle := st1.nextHandle + 1 }
        let st3 := al_destroy_bitmap st2 img
        let st4 := { st3 with fontsTexID := some cloned
                              bdTexture := some cloned }
        let r5 :=
          if env.cursorBitmapOk then
            (some st4.nextHandle,
              { st4 with liveBitmaps := st4.liveBitmaps ++ [st4.nextHandle]
                         nextHandle := st4.nextHandle + 1 })
          else ((none : Option ℕ), st4)
        let mouse_cursor := r5.1
        let st5 := r5.2
        let cursor : Option ℕ :=
          if mouse_cursor.isSome && env.createCursorOk then some st5.nextHandle
          else none
        let st6 := { st5 with bdMouseCursorInvisible := cursor
                              nextHandle := st5.nextHandle + 1 }
        let st7 :=
          match mouse_cursor with
          | some mc => al_destroy_bitmap st6 mc
          | none => st6
        (true, st7)

/-- A host release call made by ImGui_ImplAllegro5_InvalidateDeviceObjects. -/
inductive ReleaseAction where
  | destroyBitmap (h : ℕ) : ReleaseAction
  | destroyMouseCursor (h : ℕ) : ReleaseAction
deriving DecidableEq

/-- ImGui_ImplAllegro5_InvalidateDeviceObjects: if bd->Texture is set,
clear the font system's texture id, destroy the bitmap and null the
handle; if bd->MouseCursorInvisible is set, destroy the cursor and null
the handle.  Returns the new state and the release calls made. -/
def ImGui_ImplAllegro5_InvalidateDeviceObjects (st : DeviceState) :
    DeviceState × List ReleaseAction :=
  let r1 :=
    match st.bdTexture with
    | some t =>
        ({ st with fontsTexID := none
                   liveBitmaps := st.liveBitmaps.erase t
                   bdTexture := none }, [ReleaseAction.destroyBitmap t])
    | none => (st, ([] : List ReleaseAction))
  match r1.1.bdMouseCursorInvisible with
  | some c =>
      ({ r1.1 with bdMouseCursorInvisible := none },
        r1.2 ++ [ReleaseAction.destroyMouseCursor c])
  | none => (r1.1, r1.2)

/-- The delta-time computation of ImGui_ImplAllegro5_NewFrame:
io.DeltaTime = bd->Time > 0.0 ? current_time - bd->Time : 1/60. -/
def ImGui_ImplAllegro5_NewFrameDeltaTime (bdTime current_time : ℚ) : ℚ :=
  if bdTime > 0 then current_time - bdTime else 1 / 60

/-- A sequence of per-frame refreshes: given bd->Time and the list of
al_get_time readings of the successive frames, produce the list of
io.DeltaTime values, threading bd->Time = current_time after each frame. -/
def runNewFrames : ℚ → List ℚ → List ℚ
  | _, [] => []
  | bdTime, t :: ts =>
      ImGui_ImplAllegro5_NewFrameDeltaTime bdTime t :: runNewFrames t ts

/-- Callback environment with no host-state effect, for concrete inputs. -/
def cb0 : ℕ → AllegroState → AllegroState := fun _ s => s

/-- A concrete host state with a separate alpha blender (alpha_src differs
from src) and arbitrary transforms, used as a pre-render snapshot. -/
def sAlpha : AllegroState :=
  { transform := ALLEGRO_TRANSFORM.arbitrary 3
    projection := ALLEGRO_TRANSFORM.arbitrary 4
    clip_x := 1, clip_y := 2, clip_w := 3, clip_h := 4
    blender := ⟨0, 1, 3, 0, 2, 3⟩ }

/-- A concrete host state whose blender is not separate. -/
def sPlain : AllegroState :=
  { transform := ALLEGRO_TRANSFORM.arbitrary 0
    projection := ALLEGRO_TRANSFORM.arbitrary 1
    clip_x := 0, clip_y := 0, clip_w := 100, clip_h := 100
    blender := ⟨0, 1, 3, 0, 1, 3⟩ }

/-- A concrete source vertex. -/
def vOpaque : ImDrawVert := ⟨⟨0, 0⟩, ⟨0, 0⟩, 4278190335⟩

/-- A batch with two normal draw commands of three elements each; the first
command's clip rectangle is degenerate after subtracting the display
origin (max corner (5,5) < min corner (10,10)), the second is valid. -/
def clSkip : ImDrawList :=
  { vtxBuffer := [vOpaque]
    idxBuffer := [0, 0, 0, 0, 0, 0]
    cmdBuffer :=
      [ { clipRect := ⟨10, 10, 5, 5⟩, textureId := 1, elemCount := 3,
          userCallback := none },
        { clipRect := ⟨0, 0, 50, 50⟩, textureId := 2, elemCount := 3,
          userCallback := none } ] }

/-- Draw data holding the clSkip batch on a 100x100 display at origin. -/
def ddSkip : ImDrawData :=
  { cmdLists := [clSkip], displayPos := ⟨0, 0⟩, displaySize := ⟨100, 100⟩ }

/-- Draw data with no batches and a positive display size. -/
def ddEmptyLists : ImDrawData :=
  { cmdLists := [], displayPos := ⟨0, 0⟩, displaySize := ⟨100, 50⟩ }

/-- Draw data with zero display width. -/
def ddZeroWidth : ImDrawData :=
  { cmdLists := [clSkip], displayPos := ⟨0, 0⟩, displaySize := ⟨0, 100⟩ }

/-- A concrete input state: 5 mouse-button flags, all clear, no pending
queues, no out-of-range write recorded. -/
def ioW : ImGuiIOState :=
  { mousePos := ⟨0, 0⟩
    mouseDown := [false, false, false, false, false]
    mouseWheel := 0
    mouseWheelH := 0
    keysDown := [false, false, false, false]
    inputCharacters := []
    focusEvents := []
    oobWrite := false }

/-- C1.  The spec promises the running index offset advances by ElemCount
even for a command skipped on a degenerate clip rectangle, so the next
command's slice should start at the sum of preceding element counts; in
the source the `continue` at the degenerate-clip check jumps past the
`idx_offset += pcmd->ElemCount` at the bottom of the loop.  On ddSkip the
first command (ElemCount 3) is skipped, so the second command should draw
slice [3, 6) but the code draws [0, 3). -/
theorem clip_skip_does_not_advance_idx_offset :
    (ImGui_ImplAllegro5_RenderDrawData cb0 ddSkip sPlain).2 =
      [HostCall.drawPrim 2 0 3] ∧
    clSkip.cmdBuffer.map ImDrawCmd.elemCount = [3, 3] := by
  constructor
  · norm_num [ImGui_ImplAllegro5_RenderDrawData, processCmdList, processDrawCmd,
      ImGui_ImplAllegro5_SetupRenderState, ctrunc, ddSkip, sPlain, clSkip,
      vOpaque, cb0]
  · norm_num [clSkip]

/-- C5.  A non-positive display size on either axis makes render an exact
no-op: unchanged host state and no drawing calls. -/
theorem renderDrawData_noop_on_empty_display
    (cb : ℕ → AllegroState → AllegroState) (draw_data : ImDrawData)
    (s : AllegroState)
    (h : draw_data.displaySize.x ≤ 0 ∨ draw_data.displaySize.y ≤ 0) :
    ImGui_ImplAllegro5_RenderDrawData cb draw_data s = (s, []) := by
  unfold ImGui_ImplAllegro5_RenderDrawData
  rw [if_pos h]

/-- C5 witness: a display size of (0, 100) with a nonempty batch list is a
no-op. -/
theorem renderDrawData_noop_on_empty_display_witness :
    ImGui_ImplAllegro5_RenderDrawData cb0 ddZeroWidth sAlpha = (sAlpha, []) :=
  renderDrawData_noop_on_empty_display cb0 ddZeroWidth sAlpha
    (Or.inl (by norm_num [ddZeroWidth]))

/-- C3 counterexample: with a separate alpha blender active before the
call (alpha_src = 2 while src = 1) and zero batches, the blend state after
render differs from the one before: the restore path re-sets the alpha
triple to the color triple because the backup reads only al_get_blender. -/
theorem render_blend_restore_counterexample :
    (ImGui_ImplAllegro5_RenderDrawData cb0 ddEmptyLists sAlpha).1.blender ≠
      sAlpha.blender := by
  norm_num [ImGui_ImplAllegro5_RenderDrawData, processCmdList, processDrawCmd,
    ImGui_ImplAllegro5_SetupRenderState, ddEmptyLists, sAlpha, al_set_blender,
    ALLEGRO_BLENDER.mk.injEq]

/-- C3 amended: for a positive display size, render restores the current
transform, the projection transform, the clipping rectangle and the color
blend triple read by al_get_blender exactly; the separate alpha blend
triple, however, is overwritten with the color triple (al_set_blender
semantics), so it is restored only when the two triples already agreed. -/
theorem renderDrawData_restores_host_state
    (cb : ℕ → AllegroState → AllegroState) (draw_data : ImDrawData)
    (s : AllegroState) (hx : 0 < draw_data.displaySize.x)
    (hy : 0 < draw_data.displaySize.y) :
    (ImGui_ImplAllegro5_RenderDrawData cb draw_data s).1.transform =
      s.transform ∧
    (ImGui_ImplAllegro5_RenderDrawData cb draw_data s).1.projection =
      s.projection ∧
    (ImGui_ImplAllegro5_RenderDrawData cb draw_data s).1.clip_x = s.clip_x ∧
    (ImGui_ImplAllegro5_RenderDrawData cb draw_data s).1.clip_y = s.clip_y ∧
    (ImGui_ImplAllegro5_RenderDrawData cb draw_data s).1.clip_w = s.clip_w ∧
    (ImGui_ImplAllegro5_RenderDrawData cb draw_data s).1.clip_h = s.clip_h ∧
    (ImGui_ImplAllegro5_RenderDrawData cb draw_data s).1.blender.op =
      s.blender.op ∧
    (ImGui_ImplAllegro5_RenderDrawData cb draw_data s).1.blender.src =
      s.blender.src ∧
    (ImGui_ImplAllegro5_RenderDrawData cb draw_data s).1.blender.dst =
      s.blender.dst ∧
    (ImGui_ImplAllegro5_RenderDrawData cb draw_data s).1.blender.alpha_op =
      s.blender.op ∧
    (ImGui_ImplAllegro5_RenderDrawData cb draw_data s).1.blender.alpha_src =
      s.blender.src ∧
    (ImGui_ImplAllegro5_RenderDrawData cb draw_data s).1.blender.alpha_dst =
      s.blender.dst := by
  have hcond : ¬(draw_data.displaySize.x ≤ 0 ∨ draw_data.displaySize.y ≤ 0) := by
    push_neg
    exact ⟨hx, hy⟩
  unfold ImGui_ImplAllegro5_RenderDrawData
  rw [if_neg hcond]
  simp [al_set_blender]

/-- C3 amended witness at a concrete positive-size draw data and the
separate-alpha initial state. -/
theorem renderDrawData_restores_host_state_witness :
    (ImGui_ImplAllegro5_RenderDrawData cb0 ddEmptyLists sAlpha).1.transform =
      sAlpha.transform ∧
    (ImGui_ImplAllegro5_RenderDrawData cb0 ddEmptyLists sAlpha).1.projection =
      sAlpha.projection ∧
    (ImGui_ImplAllegro5_RenderDrawData cb0 ddEmptyLists sAlpha).1.clip_x =
      sAlpha.clip_x ∧
    (ImGui_ImplAllegro5_RenderDrawData cb0 ddEmptyLists sAlpha).1.clip_y =
      sAlpha.clip_y ∧
    (ImGui_ImplAllegro5_RenderDrawData cb0 ddEmptyLists sAlpha).1.clip_w =
      sAlpha.clip_w ∧
    (ImGui_ImplAllegro5_RenderDrawData cb0 ddEmptyLists sAlpha).1.clip_h =
      sAlpha.clip_h ∧
    (ImGui_ImplAllegro5_RenderDrawData cb0 ddEmptyLists sAlpha).1.blender.op =
      sAlpha.blender.op ∧
    (ImGui_ImplAllegro5_RenderDrawData cb0 ddEmptyLists sAlpha).1.blender.src =
      sAlpha.blender.src ∧
    (ImGui_ImplAllegro5_RenderDrawData cb0 ddEmptyLists sAlpha).1.blender.dst =
      sAlpha.blender.dst ∧
    (ImGui_ImplAllegro5_RenderDrawData cb0 ddEmptyLists
      sAlpha).1.blender.alpha_op = sAlpha.blender.op ∧
    (ImGui_ImplAllegro5_RenderDrawData cb0 ddEmptyLists
      sAlpha).1.blender.alpha_src = sAlpha.blender.src ∧
    (ImGui_ImplAllegro5_RenderDrawData cb0 ddEmptyLists
      sAlpha).1.blender.alpha_dst = sAlpha.blender.dst :=
  renderDrawData_restores_host_state cb0 ddEmptyLists sAlpha
    (by norm_num [ddEmptyLists]) (by norm_num [ddEmptyLists])

/-- C4.  The rebuilt host vertex array has the index buffer's length, and
at every position i it carries the position and texture coordinate of the
vertex referenced by index i, with the packed color expanded to its four
little-endian bytes (R, G, B, A) through al_map_rgba. -/
theorem convertVertices_unindexes (cl : ImDrawList)
    (hidx : ∀ j ∈ cl.idxBuffer, j < cl.vtxBuffer.length) :
    (convertVertices cl).length = cl.idxBuffer.length ∧
    ∀ i : ℕ, ∀ hi : i < cl.idxBuffer.length,
      ∃ hj : cl.idxBuffer.get ⟨i, hi⟩ < cl.vtxBuffer.length,
        (convertVertices cl).getD i defaultVertAllegro =
          { pos := (cl.vtxBuffer.get ⟨cl.idxBuffer.get ⟨i, hi⟩, hj⟩).pos
            uv := (cl.vtxBuffer.get ⟨cl.idxBuffer.get ⟨i, hi⟩, hj⟩).uv
            col := al_map_rgba
              ((cl.vtxBuffer.get ⟨cl.idxBuffer.get ⟨i, hi⟩, hj⟩).col % 256)
              ((cl.vtxBuffer.get ⟨cl.idxBuffer.get ⟨i, hi⟩, hj⟩).col / 256
                % 256)
              ((cl.vtxBuffer.get ⟨cl.idxBuffer.get ⟨i, hi⟩, hj⟩).col / 65536
                % 256)
              ((cl.vtxBuffer.get ⟨cl.idxBuffer.get ⟨i, hi⟩, hj⟩).col /
                16777216 % 256) } := by
  constructor
  · simp [convertVertices]
  · intro i hi
    have hj : cl.idxBuffer.get ⟨i, hi⟩ < cl.vtxBuffer.length :=
      hidx _ (cl.idxBuffer.get_mem i hi)
    refine ⟨hj, ?_⟩
    have hj2 : cl.idxBuffer[i] < cl.vtxBuffer.length := hj
    have hlen : i < (convertVertices cl).length := by
      simpa [convertVertices] using hi
    rw [List.getD_eq_getElem _ _ hlen]
    simp only [convertVertices, List.getElem_map, List.get_eq_getElem]
    rw [List.getD_eq_getElem _ _ hj2]
    norm_num [colByte]

/-- C4 witness: a one-index batch referencing vOpaque (packed color
0xFF0000FF: R=255, G=0, B=0, A=255). -/
theorem convertVertices_unindexes_witness :
    ∃ hj : clSkip.idxBuffer.get ⟨0, by norm_num [clSkip]⟩ <
        clSkip.vtxBuffer.length,
      (convertVertices clSkip).getD 0 defaultVertAllegro =
        { pos := (clSkip.vtxBuffer.get
            ⟨clSkip.idxBuffer.get ⟨0, by norm_num [clSkip]⟩, hj⟩).pos
          uv := (clSkip.vtxBuffer.get
            ⟨clSkip.idxBuffer.get ⟨0, by norm_num [clSkip]⟩, hj⟩).uv
          col := al_map_rgba
            ((clSkip.vtxBuffer.get
              ⟨clSkip.idxBuffer.get ⟨0, by norm_num [clSkip]⟩, hj⟩).col % 256)
            ((clSkip.vtxBuffer.get
              ⟨clSkip.idxBuffer.get ⟨0, by norm_num [clSkip]⟩, hj⟩).col / 256
              % 256)
            ((clSkip.vtxBuffer.get
              ⟨clSkip.idxBuffer.get ⟨0, by norm_num [clSkip]⟩, hj⟩).col /
              65536 % 256)
            ((clSkip.vtxBuffer.get
              ⟨clSkip.idxBuffer.get ⟨0, by norm_num [clSkip]⟩, hj⟩).col /
              16777216 % 256) } :=
  (convertVertices_unindexes clSkip
    (by intro j hj; fin_cases hj <;> norm_num [clSkip])).2 0
    (by norm_num [clSkip])

/-- C2 counterexample: a button event with index 0 — outside [1,5] — on
the bound display performs an out-of-range write of the button-flag array:
the source's guard checks only button <= 5 and then indexes MouseDown at
the unsigned value of button - 1 = 2^32 - 1. -/
theorem processEvent_button_zero_oob :
    ((ImGui_ImplAllegro5_ProcessEvent 0 ioW
      (ALLEGRO_EVENT.mouseButtonDown 0 0)).2).oobWrite = true := by
  norm_num [ImGui_ImplAllegro5_ProcessEvent, setMouseDown, cUIntSub1, ioW]

/-- C2 amended: with the five-slot button array, a button index of 6 or
more mutates nothing; an index in [1,5] on the bound display sets exactly
the flag at (button - 1) to (kind = down); an index of 0 on the bound
display is an out-of-range write, because the source checks only the
upper bound of the index. -/
theorem processEvent_mouse_button (bdDisplay : ℕ) (st : ImGuiIOState)
    (d button : ℕ) (hlen : st.mouseDown.length = 5) :
    (6 ≤ button →
      (ImGui_ImplAllegro5_ProcessEvent bdDisplay st
        (ALLEGRO_EVENT.mouseButtonDown d button)).2 = st ∧
      (ImGui_ImplAllegro5_ProcessEvent bdDisplay st
        (ALLEGRO_EVENT.mouseButtonUp d button)).2 = st) ∧
    (1 ≤ button → button ≤ 5 → d = bdDisplay →
      (ImGui_ImplAllegro5_ProcessEvent bdDisplay st
        (ALLEGRO_EVENT.mouseButtonDown d button)).2 =
        { st with mouseDown := st.mouseDown.set (button - 1) true } ∧
      (ImGui_ImplAllegro5_ProcessEvent bdDisplay st
        (ALLEGRO_EVENT.mouseButtonUp d button)).2 =
        { st with mouseDown := st.mouseDown.set (button - 1) false }) ∧
    (button = 0 → d = bdDisplay →
      (ImGui_ImplAllegro5_ProcessEvent bdDisplay st
        (ALLEGRO_EVENT.mouseButtonDown d button)).2 =
        { st with oobWrite := true }) := by
  refine ⟨?_, ?_, ?_⟩
  · intro h6
    have hnot : ¬(d = bdDisplay ∧ button ≤ 5) := by
      rintro ⟨-, h5⟩
      omega
    constructor <;>
      simp [ImGui_ImplAllegro5_ProcessEvent, hnot]
  · intro h1 h5 hd
    subst hd
    have hsub : cUIntSub1 button = button - 1 := by
      unfold cUIntSub1
      omega
    have hbound : button - 1 < st.mouseDown.length := by omega
    constructor <;>
      simp [ImGui_ImplAllegro5_ProcessEvent, h5, setMouseDown, hsub, hbound]
  · intro h0 hd
    subst h0
    subst hd
    have hsub : cUIntSub1 0 = 2 ^ 32 - 1 := by
      unfold cUIntSub1
      omega
    have hbound : ¬(4294967295 < st.mouseDown.length) := by omega
    simp [ImGui_ImplAllegro5_ProcessEvent, setMouseDown, hsub, hbound]

/-- C2 amended witness: button 2 pressed then released on the bound
display flips exactly flag 1. -/
theorem processEvent_mouse_button_witness :
    (ImGui_ImplAllegro5_ProcessEvent 0 ioW
      (ALLEGRO_EVENT.mouseButtonDown 0 2)).2 =
      { ioW with mouseDown := ioW.mouseDown.set (2 - 1) true } ∧
    (ImGui_ImplAllegro5_ProcessEvent 0 ioW
      (ALLEGRO_EVENT.mouseButtonUp 0 2)).2 =
      { ioW with mouseDown := ioW.mouseDown.set (2 - 1) false } :=
  (processEvent_mouse_button 0 ioW 0 2 (by norm_num [ioW])).2.1
    (by norm_num) (by norm_num) rfl

/-- C6.  Process-one-event returns consumed exactly for the event kinds
the backend's switch recognizes, independently of the event's display;
and a recognized event whose display differs from the bound display
leaves the input state untouched. -/
theorem processEvent_consumed_and_display_filter (bdDisplay : ℕ)
    (st : ImGuiIOState) (ev : ALLEGRO_EVENT) :
    (ImGui_ImplAllegro5_ProcessEvent bdDisplay st ev).1 =
      recognizedEvent ev ∧
    (∀ d, eventDisplay ev = some d → d ≠ bdDisplay →
      (ImGui_ImplAllegro5_ProcessEvent bdDisplay st ev).2 = st) := by
  constructor
  · cases ev <;> rfl
  · intro d hd hne
    cases ev <;>
      first
        | rfl
        | (simp only [eventDisplay, Option.some.injEq] at hd
           subst hd
           simp [ImGui_ImplAllegro5_ProcessEvent, hne])

/-- C6 witness: a mouse-axes event for display 1 with bound display 0 is
consumed but mutates nothing. -/
theorem processEvent_consumed_and_display_filter_witness :
    (ImGui_ImplAllegro5_ProcessEvent 0 ioW
      (ALLEGRO_EVENT.mouseAxes 1 7 8 1 0)).1 =
      recognizedEvent (ALLEGRO_EVENT.mouseAxes 1 7 8 1 0) ∧
    (ImGui_ImplAllegro5_ProcessEvent 0 ioW
      (ALLEGRO_EVENT.mouseAxes 1 7 8 1 0)).2 = ioW :=
  ⟨(processEvent_consumed_and_display_filter 0 ioW
      (ALLEGRO_EVENT.mouseAxes 1 7 8 1 0)).1,
    (processEvent_consumed_and_display_filter 0 ioW
      (ALLEGRO_EVENT.mouseAxes 1 7 8 1 0)).2 1 rfl (by norm_num)⟩

/-- C7.  If the atlas bitmap creation, the lock, or the clone fails, the
call returns failure and every bitmap allocated before the failing step
has been released (the live-bitmap set is back to its pre-call value, and
neither texture handle is touched); when all three succeed the call
returns success with the cloned texture handle stored in both bd->Texture
and the font system.  hfresh says live handles are below the allocation
counter, which al_create_bitmap guarantees. -/
theorem createDeviceObjects_spec (env : DeviceEnv) (st : DeviceState)
    (hfresh : ∀ h ∈ st.liveBitmaps, h < st.nextHandle) :
    ((env.atlasBitmapOk = false ∨ env.lockOk = false ∨ env.cloneOk = false) →
      (ImGui_ImplAllegro5_CreateDeviceObjects env st).1 = false ∧
      (ImGui_ImplAllegro5_CreateDeviceObjects env st).2.liveBitmaps =
        st.liveBitmaps ∧
      (ImGui_ImplAllegro5_CreateDeviceObjects env st).2.bdTexture =
        st.bdTexture ∧
      (ImGui_ImplAllegro5_CreateDeviceObjects env st).2.fontsTexID =
        st.fontsTexID) ∧
    (env.atlasBitmapOk = true → env.lockOk = true → env.cloneOk = true →
      (ImGui_ImplAllegro5_CreateDeviceObjects env st).1 = true ∧
      ∃ h, (ImGui_ImplAllegro5_CreateDeviceObjects env st).2.bdTexture =
          some h ∧
        (ImGui_ImplAllegro5_CreateDeviceObjects env st).2.fontsTexID =
          some h) := by
  have hnot : st.nextHandle ∉ st.liveBitmaps := fun hm =>
    absurd (hfresh _ hm) (lt_irrefl _)
  have herase : (st.liveBitmaps ++ [st.nextHandle]).erase st.nextHandle =
      st.liveBitmaps := by
    rw [List.erase_append_right _ hnot]
    simp
  obtain ⟨a, l, c, cbm, cc⟩ := env
  cases a <;> cases l <;> cases c <;> cases cbm <;> cases cc <;>
    simp [ImGui_ImplAllegro5_CreateDeviceObjects, al_destroy_bitmap, herase]

/-- C7 witness: a lock failure cleans up and reports failure. -/
theorem createDeviceObjects_spec_witness :
    (ImGui_ImplAllegro5_CreateDeviceObjects
      ⟨true, false, true, true, true⟩
      ⟨[], 0, none, none, none⟩).1 = false ∧
    (ImGui_ImplAllegro5_CreateDeviceObjects
      ⟨true, false, true, true, true⟩
      ⟨[], 0, none, none, none⟩).2.liveBitmaps = [] ∧
    (ImGui_ImplAllegro5_CreateDeviceObjects
      ⟨true, false, true, true, true⟩
      ⟨[], 0, none, none, none⟩).2.bdTexture = none ∧
    (ImGui_ImplAllegro5_CreateDeviceObjects
      ⟨true, false, true, true, true⟩
      ⟨[], 0, none, none, none⟩).2.fontsTexID = none :=
  (createDeviceObjects_spec ⟨true, false, true, true, true⟩
    ⟨[], 0, none, none, none⟩ (by intro h hm; cases hm)).1
    (Or.inr (Or.inl rfl))

/-- C10.  Whenever atlas creation, lock and clone succeed the call returns
success, whatever the outcomes of the 8x8 placeholder-bitmap creation and
the mouse-cursor creation are — neither result is checked; if either of
the two fails, success is returned with an empty invisible-cursor
handle. -/
theorem createDeviceObjects_ignores_cursor_failures (env : DeviceEnv)
    (st : DeviceState) (ha : env.atlasBitmapOk = true)
    (hl : env.lockOk = true) (hc : env.cloneOk = true) :
    (ImGui_ImplAllegro5_CreateDeviceObjects env st).1 = true ∧
    (env.cursorBitmapOk = false ∨ env.createCursorOk = false →
      (ImGui_ImplAllegro5_CreateDeviceObjects env st).2.bdMouseCursorInvisible
        = none) := by
  obtain ⟨a, l, c, cbm, cc⟩ := env
  subst ha
  subst hl
  subst hc
  cases cbm <;> cases cc <;>
    simp [ImGui_ImplAllegro5_CreateDeviceObjects, al_destroy_bitmap]

/-- C10 witness: placeholder-bitmap creation fails, the call still
succeeds and leaves the invisible-cursor handle empty. -/
theorem createDeviceObjects_ignores_cursor_failures_witness :
    (ImGui_ImplAllegro5_CreateDeviceObjects
      ⟨true, true, true, false, true⟩
      ⟨[], 0, none, none, none⟩).1 = true ∧
    (ImGui_ImplAllegro5_CreateDeviceObjects
      ⟨true, true, true, false, true⟩
      ⟨[], 0, none, none, none⟩).2.bdMouseCursorInvisible = none :=
  ⟨(createDeviceObjects_ignores_cursor_failures
      ⟨true, true, true, false, true⟩ ⟨[], 0, none, none, none⟩
      rfl rfl rfl).1,
    (createDeviceObjects_ignores_cursor_failures
      ⟨true, true, true, false, true⟩ ⟨[], 0, none, none, none⟩
      rfl rfl rfl).2 (Or.inl rfl)⟩

/-- C9.  Invalidation empties both handles, issues exactly one release per
non-empty handle (and none for an empty one), and is idempotent: run from
its own result it changes nothing and releases nothing. -/
theorem invalidateDeviceObjects_spec (st : DeviceState) :
    (ImGui_ImplAllegro5_InvalidateDeviceObjects st).1.bdTexture = none ∧
    (ImGui_ImplAllegro5_InvalidateDeviceObjects
      st).1.bdMouseCursorInvisible = none ∧
    (ImGui_ImplAllegro5_InvalidateDeviceObjects st).2 =
      (match st.bdTexture with
        | some t => [ReleaseAction.destroyBitmap t]
        | none => []) ++
      (match st.bdMouseCursorInvisible with
        | some c => [ReleaseAction.destroyMouseCursor c]
        | none => []) ∧
    ImGui_ImplAllegro5_InvalidateDeviceObjects
      (ImGui_ImplAllegro5_InvalidateDeviceObjects st).1 =
      ((ImGui_ImplAllegro5_InvalidateDeviceObjects st).1, []) := by
  cases h1 : st.bdTexture <;> cases h2 : st.bdMouseCursorInvisible <;>
    simp [ImGui_ImplAllegro5_InvalidateDeviceObjects, h1, h2]

/-- Helper: once the stored timestamp is positive, every refresh reports
current reading minus previous reading (the timestamps thread through). -/
theorem runNewFrames_all_diffs (prev : ℚ) (ts : List ℚ) (hp : 0 < prev)
    (hts : ∀ t ∈ ts, 0 < t) :
    runNewFrames prev ts =
      List.zipWith (fun a b => a - b) ts (prev :: ts) := by
  induction ts generalizing prev with
  | nil => rfl
  | cons t ts ih =>
      have ht : 0 < t := hts t (List.mem_cons_self t ts)
      simp only [runNewFrames, List.zipWith]
      congr 1
      · unfold ImGui_ImplAllegro5_NewFrameDeltaTime
        rw [if_pos hp]
      · exact ih t ht fun x hx => hts x (List.mem_cons_of_mem t hx)

/-- C8.  Starting from the zero-initialized stored timestamp, the first
refresh reports exactly 1/60 second and each later refresh reports the
current clock reading minus the previous one, provided every clock
reading is positive (al_get_time is monotone from the library start, so
readings taken at refresh time are positive; a reading of exactly 0 would
instead re-trigger the 1/60 fallback, since the source tests
bd->Time > 0.0 rather than first-call-ness). -/
theorem newFrame_delta_times (t0 : ℚ) (ts : List ℚ) (h0 : 0 < t0)
    (hts : ∀ t ∈ ts, 0 < t) :
    runNewFrames 0 (t0 :: ts) =
      (1 / 60 : ℚ) :: List.zipWith (fun a b => a - b) ts (t0 :: ts) := by
  simp only [runNewFrames]
  congr 1
  exact runNewFrames_all_diffs t0 ts h0 hts

/-- C8 witness: clock readings 2, 5, 6 yield deltas 1/60, 3, 1. -/
theorem newFrame_delta_times_witness :
    runNewFrames 0 (2 :: [5, 6]) =
      (1 / 60 : ℚ) :: List.zipWith (fun a b => a - b) [5, 6] (2 :: [5, 6]) :=
  newFrame_delta_times 2 [5, 6] (by norm_num)
    (by intro t ht; fin_cases ht <;> norm_num)
